import Mathlib

/-
Shallow embedding of src/resources/bins/simple_user_data.c.

The program parses 2 or 3 command-line tokens into a record
`struct args { int value; char sub_value; enum command cmd; }`
and prints the fields.  The embedding follows the C source line by line:

* `command` is the C enum with its four variants OP1..OP4.
* `args` is `struct args`; the `char` field is modelled as a `Char`
  (printf renders it via its numeric code, here `Char.toNat`).
* `scanInt` is the behaviour of `sscanf(s, "%d", ...)` / `"%ld"`:
  skip leading whitespace, optional sign, then a non-empty digit run;
  `none` means a matching failure, in which case sscanf stores nothing.
* `parse_arg` keeps a counter starting at 1 and post-increments it at each
  token access; the index functions `subTokenIdx`, `subValueIdx` and
  `cmdIdx` record the successive values of that counter.
* `run g argv` is the whole process (`main`): `argv` includes the program
  name at index 0, so `argc = argv.length`.  The parameter `g` is the
  indeterminate initial content of the uninitialised stack field
  `args.value` (the C code declares `struct args args;` without an
  initialiser and only conditionally writes `value`).
* `Outcome.crash` models an access past the end of the argument list:
  `argv[argc]` is the NULL terminator of a C argument vector, and passing
  it to `sscanf` dereferences a null pointer (undefined behaviour).
-/

inductive command where
  | OP1
  | OP2
  | OP3
  | OP4
deriving DecidableEq

structure args where
  value : Int
  sub_value : Char
  cmd : command
deriving DecidableEq

/-- Result of one process execution: normal termination with an exit code
and the text written to standard output, or a crash (out-of-list `argv`
read, i.e. a null-pointer dereference) with the output written so far. -/
inductive Outcome where
  | exit (code : Nat) (out : String)
  | crash (out : String)
deriving DecidableEq

/-- Value of a non-empty run of decimal digits. -/
def digitsVal (ds : List Char) : Nat :=
  ds.foldl (fun acc c => acc * 10 + (c.toNat - 48)) 0

/-- `sscanf(s, "%d", &x)` (and `"%ld"`): skip leading whitespace, read an
optional sign and then a maximal non-empty digit run.  `some n` means the
conversion succeeded and stored `n`; `none` means a matching failure (or
end of input), in which case sscanf leaves the destination untouched. -/
def scanInt (s : String) : Option Int :=
  let cs := s.toList.dropWhile Char.isWhitespace
  let signed : Bool × List Char :=
    match cs with
    | '-' :: rest => (true, rest)
    | '+' :: rest => (false, rest)
    | _ => (false, cs)
  let ds := signed.2.takeWhile Char.isDigit
  if ds.isEmpty then none
  else some (if signed.1 then -(digitsVal ds : Int) else (digitsVal ds : Int))

/-- The `switch (cmd)` in `parse_arg`: codes 0..3 select OP1..OP4, every
other value falls into the `default:` error branch (modelled as `none`). -/
def cmdToCommand (n : Int) : Option command :=
  if n = 0 then some .OP1
  else if n = 1 then some .OP2
  else if n = 2 then some .OP3
  else if n = 3 then some .OP4
  else none

/-- Index read by `char *sub_value = argv[counter++];` — the token whose
length is checked.  The counter is 1 after the arity check and is
incremented once more when `argc == 4` (the `value` scan). -/
def subTokenIdx (argc : Nat) : Nat := if argc = 4 then 2 else 1

/-- Index read by `args.sub_value = argv[counter++][0];` — one past the
length-checked token, because the counter was already advanced. -/
def subValueIdx (argc : Nat) : Nat := subTokenIdx argc + 1

/-- Index read by `char *cmd_raw = argv[counter++];`. -/
def cmdIdx (argc : Nat) : Nat := subTokenIdx argc + 2

/-- The length-checked token, `argv[subTokenIdx]`. -/
def checkedToken (argv : List String) : Option String :=
  argv.get? (subTokenIdx argv.length)

/-- First character of a C string: its first byte, or the terminating NUL
byte when the string is empty. -/
def firstChar (s : String) : Char := s.toList.headD (Char.ofNat 0)

/-- The character actually stored into `args.sub_value`, read from
`argv[subValueIdx][0]`. -/
def storedSubValue (argv : List String) : Option Char :=
  (argv.get? (subValueIdx argv.length)).map firstChar

/-- The content of `args.value` after the value step of `parse_arg`:
`0` when `argc != 4`; when `argc == 4`, the scanned integer, or the
indeterminate initial content `g` when the scan stores nothing. -/
def parsedValue (g : Int) (argv : List String) : Int :=
  if argv.length = 4 then ((argv.get? 1).bind scanInt).getD g else 0

/-- Label printed by the `switch (args->cmd)` in `print_arg`. -/
def commandLabel : command → String
  | .OP1 => "OP1"
  | .OP2 => "OP2"
  | .OP3 => "OP3"
  | .OP4 => "OP4"

/-- `print_arg`: emits `value: <value>` only when `value` is non-zero, then
`sub_value <numeric code>`, then the command label.  The C function takes
`struct args *` and only reads through it; the returned record is the
state of `*args` when the function returns. -/
def print_arg (a : args) : String × args :=
  ((if a.value ≠ 0 then "value: " ++ toString a.value else "")
      ++ ("sub_value " ++ toString a.sub_value.toNat)
      ++ commandLabel a.cmd,
    a)

/-- The whole process (`main`): `parse_arg` then `print_arg`, returning 0.
`argv` includes the program name, so `argc = argv.length`; `g` is the
indeterminate initial content of the uninitialised `args.value`. -/
def run (g : Int) (argv : List String) : Outcome :=
  if argv.length ≠ 3 ∧ argv.length ≠ 4 then .exit 1 "Need 2 or 3 args"
  else
    let value : Int := parsedValue g argv
    match argv.get? (subTokenIdx argv.length) with
    | none => .crash ""
    | some sub_tok =>
      if sub_tok.length ≠ 1 then .exit 1 "arg sub_value need to be size 1"
      else
        match argv.get? (subValueIdx argv.length) with
        | none => .crash ""
        | some sv =>
          match argv.get? (cmdIdx argv.length) with
          | none => .crash ""
          | some cmd_raw =>
            match cmdToCommand ((scanInt cmd_raw).getD 0) with
            | none => .exit 1 "Invalid cmd"
            | some c => .exit 0 (print_arg ⟨value, firstChar sv, c⟩).1

/-- Helper: a list of length four is an explicit four-element list. -/
theorem list_length_eq_four {α : Type} {l : List α} (h : l.length = 4) :
    ∃ a b c d, l = [a, b, c, d] := by
  rcases l with _ | ⟨a, _ | ⟨b, _ | ⟨c, _ | ⟨d, _ | ⟨e, l⟩⟩⟩⟩⟩
  · simp at h
  · simp at h
  · simp at h
  · simp at h
  · exact ⟨a, b, c, d, rfl⟩
  · simp at h

/-- Helper: no list starting with the characters of `"value: "` equals a
list starting with the characters of `"sub_value "`. -/
theorem value_seg_head_ne (t r : List Char) :
    "value: ".data ++ t ≠ "sub_value ".data ++ r := by
  intro h
  have hv : "value: ".data = ['v', 'a', 'l', 'u', 'e', ':', ' '] := rfl
  have hs : "sub_value ".data = ['s', 'u', 'b', '_', 'v', 'a', 'l', 'u', 'e', ' '] := rfl
  rw [hv, hs] at h
  simp at h

/-- Claim C1 (code bug): on the accepted tokens `["a", "1"]` the
length-checked token is `"a"`, yet `parse_arg` stores the first character
of the NEXT token — the command-position token `"1"` (code 49) — because
`args.sub_value = argv[counter++][0]` re-increments the counter instead of
using the saved `sub_value` pointer; execution then reads `argv[3]` past
the list and crashes. -/
theorem C1_sub_value_off_by_one :
    checkedToken ["prog", "a", "1"] = some "a" ∧
    storedSubValue ["prog", "a", "1"] = some '1' ∧
    storedSubValue ["prog", "a", "1"] ≠ some 'a' ∧
    run 0 ["prog", "a", "1"] = Outcome.crash "" := by decide

/-- Claim C2, counterexample: for the record `⟨0, 'a', OP1⟩` the printer
emits `"sub_value 97OP1"`; the label `"First"` claimed by the spec occurs
nowhere in that output. -/
theorem C2_counterexample :
    (print_arg ⟨0, 'a', command.OP1⟩).1 = "sub_value 97OP1" ∧
    ¬ ("First".data <:+: (print_arg ⟨0, 'a', command.OP1⟩).1.data) := by decide

/-- Claim C2, amended: for every record, `print_arg` ends its output with
the literal label `"OP1"`, `"OP2"`, `"OP3"` or `"OP4"` corresponding to
the matched variant (not `"First"`..`"Fourth"`). -/
theorem C2_op_labels (a : args) :
    (commandLabel a.cmd).data <:+ (print_arg a).1.data ∧
    commandLabel command.OP1 = "OP1" ∧ commandLabel command.OP2 = "OP2" ∧
    commandLabel command.OP3 = "OP3" ∧ commandLabel command.OP4 = "OP4" := by
  refine ⟨?_, rfl, rfl, rfl, rfl⟩
  refine ⟨((if a.value ≠ 0 then "value: " ++ toString a.value else "")
      ++ ("sub_value " ++ toString a.sub_value.toNat)).data, ?_⟩
  simp [print_arg, String.data_append]

/-- Claim C3 (code bug): on tokens `["a", "9"]` — final token outside
`{"0","1","2","3"}` — the program does not print the invalid-command
diagnostic and exit 1: it crashes reading `argv[3]` (the NULL terminator)
before the command switch.  The switch itself would reject 9, but a
non-numeric final token would scan as 0 and select OP1, also contrary to
the claim. -/
theorem C3_crash_before_command_check :
    run 0 ["prog", "a", "9"] = Outcome.crash "" ∧
    run 0 ["prog", "a", "9"] ≠ Outcome.exit 1 "Invalid cmd" ∧
    cmdToCommand 9 = none ∧
    cmdToCommand ((scanInt "zzz").getD 0) = some command.OP1 := by decide

/-- Claim C4 (code bug): on the input `["5", "a", "0"]` the program does
not exit 0 with `sub_value 97`: the value scan stores 5, but `sub_value`
is loaded from the NEXT token `"0"` (code 48, not 97), and the command
read then dereferences `argv[4]` — the NULL terminator — and crashes. -/
theorem C4_crash_on_5_a_0 :
    run 0 ["prog", "5", "a", "0"] = Outcome.crash "" ∧
    parsedValue 0 ["prog", "5", "a", "0"] = 5 ∧
    storedSubValue ["prog", "5", "a", "0"] = some '0' ∧
    ('0'.toNat = 48 ∧ '0'.toNat ≠ 97) := by decide

/-- Claim C5: with any token count other than 2 or 3 (beyond the program
name) the process prints the arity diagnostic and exits with status 1,
before any field of the record is considered. -/
theorem C5_arity (g : Int) (prog : String) (toks : List String)
    (h2 : toks.length ≠ 2) (h3 : toks.length ≠ 3) :
    run g (prog :: toks) = Outcome.exit 1 "Need 2 or 3 args" := by
  have h : (prog :: toks).length ≠ 3 ∧ (prog :: toks).length ≠ 4 := by
    simp only [List.length_cons]
    omega
  simp only [run]
  rw [if_pos h]

/-- Witness for C5: the 0-token invocation `["prog"]`. -/
theorem C5_arity_witness :
    run 0 ["prog"] = Outcome.exit 1 "Need 2 or 3 args" :=
  C5_arity 0 "prog" [] (by decide) (by decide)

/-- Claim C6: with 2 or 3 tokens, if the token at the sub_value position
(the length-checked token) does not have length 1, the process prints
exactly the length diagnostic and exits with status 1. -/
theorem C6_sub_value_length (g : Int) (prog : String) (toks : List String)
    (harity : toks.length = 2 ∨ toks.length = 3)
    (s : String) (hs : checkedToken (prog :: toks) = some s)
    (hlen : s.length ≠ 1) :
    run g (prog :: toks) = Outcome.exit 1 "arg sub_value need to be size 1" := by
  rcases harity with h | h
  · obtain ⟨a, b, rfl⟩ := List.length_eq_two.mp h
    simp [checkedToken, subTokenIdx] at hs
    subst hs
    simp [run, subTokenIdx, hlen]
  · obtain ⟨a, b, c, rfl⟩ := List.length_eq_three.mp h
    simp [checkedToken, subTokenIdx] at hs
    subst hs
    simp [run, subTokenIdx, hlen]

/-- Witness for C6: the 2-token invocation with tokens `["bb", "2"]`. -/
theorem C6_sub_value_length_witness :
    run 0 ["prog", "bb", "2"] = Outcome.exit 1 "arg sub_value need to be size 1" :=
  C6_sub_value_length 0 "prog" ["bb", "2"] (Or.inl rfl) "bb" rfl (by decide)

/-- Claim C7: with only 2 tokens the value step stores 0, and in the
printed output the `value: <value>` segment comes first exactly when the
`value` field is non-zero, and is absent (even as a leading segment) when
it is 0. -/
theorem C7_value_zero_semantics (g : Int) (prog : String) (toks : List String)
    (h : toks.length = 2) (a : args) :
    parsedValue g (prog :: toks) = 0 ∧
    (a.value ≠ 0 → ("value: " ++ toString a.value).data ++
      ("sub_value " ++ toString a.sub_value.toNat ++ commandLabel a.cmd).data
        = (print_arg a).1.data) ∧
    (a.value = 0 → ∀ t : List Char, "value: ".data ++ t ≠ (print_arg a).1.data) := by
  refine ⟨?_, ?_, ?_⟩
  · simp [parsedValue, h]
  · intro hv
    simp [print_arg, hv, String.data_append, List.append_assoc]
  · intro hv t
    have hout : (print_arg a).1.data
        = "sub_value ".data ++
          ((toString a.sub_value.toNat).data ++ (commandLabel a.cmd).data) := by
      have h0 : ("" : String).data = [] := rfl
      simp [print_arg, hv, String.data_append, h0, List.append_assoc]
    rw [hout]
    exact value_seg_head_ne t _

/-- Witness for C7: tokens `["a", "1"]` and the record `⟨5, 'a', OP1⟩`. -/
theorem C7_value_zero_semantics_witness :
    parsedValue 0 ["prog", "a", "1"] = 0 ∧
    ((5 : Int) ≠ 0 → ("value: " ++ toString (5 : Int)).data ++
      ("sub_value " ++ toString ('a'.toNat) ++ commandLabel command.OP1).data
        = (print_arg ⟨5, 'a', command.OP1⟩).1.data) ∧
    ((5 : Int) = 0 → ∀ t : List Char,
      "value: ".data ++ t ≠ (print_arg ⟨5, 'a', command.OP1⟩).1.data) :=
  C7_value_zero_semantics 0 "prog" ["a", "1"] rfl ⟨5, 'a', command.OP1⟩

/-- Claim C8, counterexample: with first token `"x"` (unparseable) and
uninitialised stack content 1, the value field is 1, not 0: sscanf stores
nothing on a matching failure and `args.value` has no initialiser. -/
theorem C8_counterexample :
    scanInt "x" = none ∧ parsedValue 1 ["prog", "x", "a", "0"] ≠ 0 := by decide

/-- Claim C8, amended: for a 3-token invocation whose first token is not
parseable as an integer, the value field keeps the indeterminate initial
content of the uninitialised struct member (the scan stores nothing); it
is not forced to 0. -/
theorem C8_value_left_uninitialized (g : Int) (prog t b c : String)
    (hscan : scanInt t = none) :
    parsedValue g [prog, t, b, c] = g := by
  simp [parsedValue, hscan]

/-- Witness for C8: first token `"x"`, initial content 7. -/
theorem C8_value_left_uninitialized_witness :
    parsedValue 7 ["prog", "x", "a", "0"] = 7 :=
  C8_value_left_uninitialized 7 "prog" "x" "a" "0" (by decide)

/-- Claim C9: for every accepted arity (2 or 3 tokens) whose length check
passes, the command token index equals `argc`, i.e. `argv[argc]` — past
the argument list, the NULL terminator of a C argument vector — so the
command-step sscanf dereferences a null pointer and the process crashes. -/
theorem C9_command_read_past_argv (g : Int) (argv : List String)
    (harity : argv.length = 3 ∨ argv.length = 4)
    (s : String) (hs : checkedToken argv = some s) (hlen : s.length = 1) :
    cmdIdx argv.length = argv.length ∧
    argv.get? (cmdIdx argv.length) = none ∧
    run g argv = Outcome.crash "" := by
  rcases harity with h | h
  · obtain ⟨a, b, c, rfl⟩ := List.length_eq_three.mp h
    simp [checkedToken, subTokenIdx] at hs
    subst hs
    refine ⟨by simp [cmdIdx, subTokenIdx], by simp [cmdIdx, subTokenIdx], ?_⟩
    simp [run, subTokenIdx, subValueIdx, cmdIdx, hlen]
  · obtain ⟨a, b, c, d, rfl⟩ := list_length_eq_four h
    simp [checkedToken, subTokenIdx] at hs
    subst hs
    refine ⟨by simp [cmdIdx, subTokenIdx], by simp [cmdIdx, subTokenIdx], ?_⟩
    simp [run, subTokenIdx, subValueIdx, cmdIdx, hlen]

/-- Witness for C9: the accepted 2-token invocation `["a", "1"]`. -/
theorem C9_command_read_past_argv_witness :
    cmdIdx ((["prog", "a", "1"] : List String).length)
        = (["prog", "a", "1"] : List String).length ∧
    (["prog", "a", "1"] : List String).get?
        (cmdIdx (["prog", "a", "1"] : List String).length) = none ∧
    run 0 ["prog", "a", "1"] = Outcome.crash "" :=
  C9_command_read_past_argv 0 ["prog", "a", "1"] (Or.inl rfl) "a" rfl rfl

/-- Claim C10: `print_arg` only reads through its argument pointer; the
record is unchanged when it returns. -/
theorem C10_print_arg_preserves_args (a : args) : (print_arg a).2 = a := rfl
